import Mathlib

/-!
Verification of the `narrow` HTTP reverse proxy core: the latency
histogram (`src/apps/core/src/statistics/histogram.rs`), the shared
statistics store (`src/apps/core/src/state/mod.rs`), the proxy handler
(`src/apps/core/src/net/proxy.rs`) and the periodic reporter task
(`src/apps/core/src/main.rs`).

Machine integers (`u64`, `u128`) are modelled as `Nat`; `std::time::Duration`
is modelled by its total nanosecond count, with `as_millis`/`as_micros`
performing the same truncating division as Rust.  `chrono::DateTime<Utc>`
is modelled as an abstract `Nat` timestamp.  `HashMap<String, Histogram>`
is modelled as an association list in insertion order (the map's iteration
order is implementation-defined in the source, so any fixed order refines it).
-/

namespace Narrow

/-- Model of `chrono::DateTime<Utc>`: an abstract instant. -/
abbrev Timestamp := Nat

/-- Model of `std::time::Duration`: total nanoseconds. -/
structure Duration where
  nanos : Nat
deriving Repr, DecidableEq

/-- `Duration::as_millis`: truncating division by 10^6, as in Rust. -/
def Duration.as_millis (d : Duration) : Nat := d.nanos / 1000000

/-- `Duration::as_micros`: truncating division by 10^3, as in Rust. -/
def Duration.as_micros (d : Duration) : Nat := d.nanos / 1000

/-- `Duration::from_millis`. -/
def Duration.from_millis (ms : Nat) : Duration := ⟨ms * 1000000⟩

/-- `Histogram` from `statistics/histogram.rs`: six bucket counters,
a total, and the optional time of the most recent update. -/
structure Histogram where
  count_0_10 : Nat
  count_11_100 : Nat
  count_101_250 : Nat
  count_251_500 : Nat
  count_501_1000 : Nat
  count_1000_plus : Nat
  total_requests : Nat
  last_request_time : Option Timestamp
deriving Repr, DecidableEq

/-- `Histogram::default()`: all counters zero, no last-request time. -/
def Histogram.default : Histogram :=
  { count_0_10 := 0, count_11_100 := 0, count_101_250 := 0,
    count_251_500 := 0, count_501_1000 := 0, count_1000_plus := 0,
    total_requests := 0, last_request_time := none }

/-- `Histogram::add`: `match duration.as_millis()` over the ranges
`0..=10`, `11..=100`, `101..=250`, `251..=500`, `501..=1000`, `_`,
then `total_requests += 1` and `last_request_time = Some(timestamp)`. -/
def Histogram.add (h : Histogram) (duration : Duration) (timestamp : Timestamp) :
    Histogram :=
  let ms := duration.as_millis
  let h :=
    if ms ≤ 10 then { h with count_0_10 := h.count_0_10 + 1 }
    else if ms ≤ 100 then { h with count_11_100 := h.count_11_100 + 1 }
    else if ms ≤ 250 then { h with count_101_250 := h.count_101_250 + 1 }
    else if ms ≤ 500 then { h with count_251_500 := h.count_251_500 + 1 }
    else if ms ≤ 1000 then { h with count_501_1000 := h.count_501_1000 + 1 }
    else { h with count_1000_plus := h.count_1000_plus + 1 }
  { h with total_requests := h.total_requests + 1,
           last_request_time := some timestamp }

/-- Sum of the six bucket counters of a histogram. -/
def Histogram.bucketSum (h : Histogram) : Nat :=
  h.count_0_10 + h.count_11_100 + h.count_101_250 + h.count_251_500 +
    h.count_501_1000 + h.count_1000_plus

/-- Folding `Histogram::add` over a sequence of observations. -/
def Histogram.addAll (h : Histogram) : List (Duration × Timestamp) → Histogram
  | [] => h
  | (d, t) :: rest => (h.add d t).addAll rest

/-- The histogram map `HashMap<String, Histogram>` of the statistics
store, as an association list in insertion order. -/
abbrev HistMap := List (String × Histogram)

/-- `HashMap::get(k)` on the histogram map. -/
def HistMap.find (m : HistMap) (k : String) : Option Histogram :=
  match m with
  | [] => none
  | (k', h) :: rest => if k' = k then some h else HistMap.find rest k

/-- `HashMap::contains_key(k)` on the histogram map. -/
def HistMap.containsKey (m : HistMap) (k : String) : Bool :=
  match m with
  | [] => false
  | (k', _) :: rest => k' = k || HistMap.containsKey rest k

/-- `histograms.entry(k).or_default().add(duration, timestamp)`:
update the entry for `k` in place, inserting a default histogram first
when the key is absent. -/
def HistMap.entryAdd (m : HistMap) (k : String) (d : Duration) (t : Timestamp) :
    HistMap :=
  match m with
  | [] => [(k, Histogram.default.add d t)]
  | (k', h) :: rest =>
    if k' = k then (k', h.add d t) :: rest
    else (k', h) :: HistMap.entryAdd rest k d t

/-- The two-entry update a single proxied request performs on the
histogram map (proxy.rs lines 74-77): first `"Overall"`, then the
request's endpoint key, both with the same duration and timestamp. -/
def record_request (m : HistMap) (k : String) (d : Duration) (t : Timestamp) :
    HistMap :=
  (m.entryAdd "Overall" d t).entryAdd k d t

/-- `total_requests` of the `"Overall"` entry, `0` when absent. -/
def overallTotal (m : HistMap) : Nat :=
  match m.find "Overall" with
  | some h => h.total_requests
  | none => 0

/-- Sum of `total_requests` over all entries other than `"Overall"`. -/
def sumOtherTotals (m : HistMap) : Nat :=
  match m with
  | [] => 0
  | (k, h) :: rest =>
    (if k = "Overall" then 0 else h.total_requests) + sumOtherTotals rest

/-- Model of `std::net::IpAddr`: its textual form. -/
abbrev IpAddr := String

/-- Model of `std::net::SocketAddr`: peer IP plus port; `.ip()` is the
`ip` field. -/
structure SocketAddr where
  ip : IpAddr
  port : Nat
deriving Repr, DecidableEq

/-- Model of an inbound `hyper::Uri` in origin form: path plus optional
query string.  `path()` is the `path` field. -/
structure Uri where
  path : String
  query : Option String
deriving Repr, DecidableEq

/-- `uri.path_and_query().as_str()`: path followed by `?query` when a
query is present. -/
def Uri.pathAndQueryStr (u : Uri) : String :=
  u.path ++ (match u.query with | some q => "?" ++ q | none => "")

/-- `uri.to_string()` of an origin-form request URI, which prints its
path and query. -/
def Uri.toStr (u : Uri) : String := u.pathAndQueryStr

/-- Model of an inbound `hyper::Request<Body>`: the parts the handler
reads. -/
structure Request where
  method : String
  uri : Uri
  headers : List (String × String)
  body : String
deriving Repr, DecidableEq

/-- Model of a `hyper::Response<Body>`: status code and body. -/
structure Response where
  status : Nat
  body : String
deriving Repr, DecidableEq

/-- `Log` from `state/log.rs`: one completed request. -/
structure Log where
  timestamp : Timestamp
  req_method : String
  req_uri : String
  requester_ip : String
  micros : Nat
deriving Repr, DecidableEq

/-- Characters the external `http` crate accepts in a URI authority
host (model of `Uri::from_str`; covers the registered-name characters
the proxy's configuration can meaningfully use). -/
def hostCharOk (c : Char) : Bool :=
  c.isAlphanum || c = '-' || c = '.' || c = '_'

/-- Characters the external `http` crate accepts in a path-and-query
(model of `Uri::from_str`). -/
def pathCharOk (c : Char) : Bool :=
  c.isAlphanum || c = '/' || c = '?' || c = '&' || c = '=' || c = '-' ||
    c = '.' || c = '_' || c = '~' || c = '%' || c = '+' || c = ':' ||
    c = '@' || c = ',' || c = ';' || c = '!' || c = '$' || c = '*' ||
    c = '(' || c = ')'

/-- Model of the external `http` crate parsing the string
`format!("http://{}:{}{}", target_host, target_port, path_and_query)`
built in the handler: it succeeds exactly when the configured host is a
nonempty string of authority characters and the path-and-query uses
URI characters.  (The port is a `u16` and always prints validly.) -/
def outboundUriParseOk (host : String) (pq : String) : Bool :=
  !host.data.isEmpty && host.data.all hostCharOk && pq.data.all pathCharOk

/-- Outcome of one `proxy` call.  `panicked` models the `.unwrap()` on
the `Uri` parse of the outbound request (proxy.rs lines 40-47);
`transportError` models the `?` on `client.request` returning the
`hyper::Error` to the caller. -/
inductive ProxyResult
  | ok (resp : Response)
  | transportError
  | panicked
deriving Repr, DecidableEq

/-- Result and post-state of one `proxy` call: the returned value, the
shared histogram map and log list after the call, and whether the
upstream client was invoked. -/
structure ProxyState where
  result : ProxyResult
  histograms : HistMap
  loglist : List Log
  upstreamCalled : Bool
deriving Repr, DecidableEq

/-- The `proxy` handler from `net/proxy.rs`, with its environment made
explicit: `timestamp` is the `Utc::now()` read on entry, `upstream` is
the outcome of `client.request(proxied_req).await` (a response from
upstream, any status, or a transport error), and `elapsed` is the
duration `start.elapsed()` measures when the response arrives.
Control flow follows the source: blacklist check and early 403; build
and parse the outbound URI (`unwrap` panics on failure); send upstream
(`?` propagates the error); push one `Log`; update the `"Overall"`
entry then the `req.uri.path()` entry of the histogram map. -/
def proxy (req : Request) (requester_ip : SocketAddr)
    (histograms : HistMap) (loglist : List Log)
    (target_host : String) (target_port : Nat)
    (blacklist : List IpAddr)
    (timestamp : Timestamp)
    (upstream : Except Unit Response)
    (elapsed : Duration) : ProxyState :=
  if blacklist.contains requester_ip.ip then
    { result := .ok { status := 403, body := "Access denied" },
      histograms := histograms, loglist := loglist, upstreamCalled := false }
  else if !outboundUriParseOk target_host req.uri.pathAndQueryStr then
    { result := .panicked, histograms := histograms, loglist := loglist,
      upstreamCalled := false }
  else
    match upstream with
    | .error _ =>
      { result := .transportError, histograms := histograms,
        loglist := loglist, upstreamCalled := true }
    | .ok resp =>
      let duration := elapsed
      let loglist' := loglist ++
        [{ timestamp := timestamp, req_method := req.method,
           req_uri := req.uri.toStr, requester_ip := requester_ip.ip,
           micros := duration.as_micros }]
      let hist' := record_request histograms req.uri.path duration timestamp
      { result := .ok resp, histograms := hist', loglist := loglist',
        upstreamCalled := true }

/-!
Interleaving model of the shared statistics store.  Each constructor is
one critical section (one `Mutex` lock acquisition) from the source:
`record` is the handler's single lock of the histogram map covering both
entry updates (proxy.rs lines 74-77); `append` is the handler's lock of
the log list (line 66); `snapClone`, `snapClearHist` and `snapClearLog`
are the reporter task's three separate lock acquisitions per tick
(main.rs lines 257-263): clone-for-snapshot, clear histograms, clear log.
-/

/-- One atomic critical section on the shared store. -/
inductive Ev
  | record (k : String) (d : Duration) (t : Timestamp)
  | append (l : Log)
  | snapClone
  | snapClearHist
  | snapClearLog
deriving Repr, DecidableEq

/-- Shared store plus the sequence of snapshots the reporter has taken. -/
structure SysState where
  hist : HistMap
  log : List Log
  snapshots : List HistMap
deriving Repr, DecidableEq

/-- Process start: empty histogram map, empty log, no snapshots. -/
def SysState.init : SysState := { hist := [], log := [], snapshots := [] }

/-- Effect of one critical section on the store. -/
def SysState.step (s : SysState) : Ev → SysState
  | .record k d t => { s with hist := record_request s.hist k d t }
  | .append l => { s with log := s.log ++ [l] }
  | .snapClone => { s with snapshots := s.snapshots ++ [s.hist] }
  | .snapClearHist => { s with hist := [] }
  | .snapClearLog => { s with log := [] }

/-- Run an interleaving of critical sections from a state. -/
def SysState.run (s : SysState) (evs : List Ev) : SysState :=
  evs.foldl SysState.step s

/-- Model of the external chrono local-time formatting used for the
`Last Request` column; the exact text is immaterial to the claims, only
that it is produced from the stored timestamp rather than being `"N/A"`. -/
def formatLocalTime (t : Timestamp) : String := "time " ++ toString t

/-- The `Last Request` cell: formatted local time, or `"N/A"` when the
histogram was never updated (histogram.rs lines 37-40). -/
def lastRequestCell (h : Histogram) : String :=
  match h.last_request_time with
  | some t => formatLocalTime t
  | none => "N/A"

/-- `add_histogram_row`: the nine cells of one table row
(histogram.rs lines 42-52). -/
def add_histogram_row (endpoint : String) (h : Histogram) : List String :=
  [endpoint, toString h.count_0_10, toString h.count_11_100,
   toString h.count_101_250, toString h.count_251_500,
   toString h.count_501_1000, toString h.count_1000_plus,
   toString h.total_requests, lastRequestCell h]

/-- `print_histograms` (histogram.rs lines 55-93), as the list of body
rows of the rendered table: when the map is empty or holds only an
`"Overall"` key, a single default `"Overall"` row; otherwise the
`"Overall"` row (if present) followed by every other endpoint's row. -/
def print_histograms (m : HistMap) : List (List String) :=
  if m.isEmpty || (m.length == 1 && m.containsKey "Overall") then
    [add_histogram_row "Overall" Histogram.default]
  else
    (match m.find "Overall" with
     | some h => [add_histogram_row "Overall" h]
     | none => []) ++
    (m.filter (fun p => !(p.1 == "Overall"))).map
      (fun p => add_histogram_row p.1 p.2)

/-- States of the histogram map reachable from the empty map by
`record_request` steps whose endpoint key satisfies `P`, and by the
reporter's clear step. -/
inductive Reachable (P : String → Prop) : HistMap → Prop
  | init : Reachable P []
  | record {m : HistMap} (k : String) (d : Duration) (t : Timestamp) :
      P k → Reachable P m → Reachable P (record_request m k d t)
  | clear {m : HistMap} : Reachable P m → Reachable P []

theorem Histogram.add_total (h : Histogram) (d : Duration) (t : Timestamp) :
    (h.add d t).total_requests = h.total_requests + 1 := by
  simp only [Histogram.add]
  split_ifs <;> rfl

theorem Histogram.bucketSum_add (h : Histogram) (d : Duration) (t : Timestamp) :
    (h.add d t).bucketSum = h.bucketSum + 1 := by
  simp only [Histogram.add, Histogram.bucketSum]
  split_ifs <;> simp <;> omega

theorem Duration.as_millis_from_millis (n : Nat) :
    (Duration.from_millis n).as_millis = n := by
  show n * 1000000 / 1000000 = n
  omega

theorem HistMap.find_entryAdd_self (m : HistMap) (k : String) (d : Duration)
    (t : Timestamp) :
    (m.entryAdd k d t).find k =
      some (((m.find k).getD Histogram.default).add d t) := by
  induction m with
  | nil => simp [HistMap.entryAdd, HistMap.find]
  | cons p rest ih =>
    obtain ⟨k', h⟩ := p
    by_cases hk : k' = k <;>
      simp [HistMap.entryAdd, HistMap.find, hk, ih]

theorem HistMap.find_entryAdd_ne (m : HistMap) {k q : String} (hne : q ≠ k)
    (d : Duration) (t : Timestamp) :
    (m.entryAdd k d t).find q = m.find q := by
  have hne' : k ≠ q := Ne.symm hne
  induction m with
  | nil => simp [HistMap.entryAdd, HistMap.find, hne']
  | cons p rest ih =>
    obtain ⟨k', h⟩ := p
    by_cases hk : k' = k
    · subst hk
      simp [HistMap.entryAdd, HistMap.find, hne']
    · simp [HistMap.entryAdd, HistMap.find, hk, ih]

theorem overallTotal_eq_getD (m : HistMap) :
    overallTotal m = ((m.find "Overall").getD Histogram.default).total_requests := by
  unfold overallTotal
  cases m.find "Overall" <;> rfl

theorem overallTotal_entryAdd_overall (m : HistMap) (d : Duration) (t : Timestamp) :
    overallTotal (m.entryAdd "Overall" d t) = overallTotal m + 1 := by
  rw [overallTotal_eq_getD, overallTotal_eq_getD,
    HistMap.find_entryAdd_self, Option.getD_some, Histogram.add_total]

theorem overallTotal_entryAdd_ne (m : HistMap) {k : String} (hk : k ≠ "Overall")
    (d : Duration) (t : Timestamp) :
    overallTotal (m.entryAdd k d t) = overallTotal m := by
  rw [overallTotal_eq_getD, overallTotal_eq_getD,
    HistMap.find_entryAdd_ne m (fun h => hk h.symm)]

theorem sumOtherTotals_entryAdd_overall (m : HistMap) (d : Duration)
    (t : Timestamp) :
    sumOtherTotals (m.entryAdd "Overall" d t) = sumOtherTotals m := by
  induction m with
  | nil => simp [HistMap.entryAdd, sumOtherTotals]
  | cons p rest ih =>
    obtain ⟨k', h⟩ := p
    by_cases hk : k' = "Overall" <;>
      simp [HistMap.entryAdd, sumOtherTotals, hk, ih]

theorem sumOtherTotals_entryAdd_ne (m : HistMap) {k : String}
    (hk : k ≠ "Overall") (d : Duration) (t : Timestamp) :
    sumOtherTotals (m.entryAdd k d t) = sumOtherTotals m + 1 := by
  induction m with
  | nil => simp [HistMap.entryAdd, sumOtherTotals, hk, Histogram.add_total,
      Histogram.default]
  | cons p rest ih =>
    obtain ⟨k', h⟩ := p
    by_cases hke : k' = k
    · subst hke
      simp [HistMap.entryAdd, sumOtherTotals, hk, Histogram.add_total]
      omega
    · simp [HistMap.entryAdd, sumOtherTotals, hke, ih]
      omega

theorem overallTotal_record_request (m : HistMap) {k : String}
    (hk : k ≠ "Overall") (d : Duration) (t : Timestamp) :
    overallTotal (record_request m k d t) = overallTotal m + 1 := by
  unfold record_request
  rw [overallTotal_entryAdd_ne _ hk, overallTotal_entryAdd_overall]

theorem sumOtherTotals_record_request (m : HistMap) {k : String}
    (hk : k ≠ "Overall") (d : Duration) (t : Timestamp) :
    sumOtherTotals (record_request m k d t) = sumOtherTotals m + 1 := by
  unfold record_request
  rw [sumOtherTotals_entryAdd_ne _ hk, sumOtherTotals_entryAdd_overall]

/-- C2 (counterexample): the claim quantifies over arbitrary endpoint
keys, but a `record_request` whose endpoint key is itself `"Overall"`
updates the `"Overall"` entry twice, so in the reachable state after one
such call the `"Overall"` total is `2` while the per-endpoint totals sum
to `0`. -/
theorem c2_counterexample_overall_key :
    Reachable (fun _ => True) (record_request [] "Overall" ⟨0⟩ 0) ∧
    overallTotal (record_request [] "Overall" ⟨0⟩ 0) ≠
      sumOtherTotals (record_request [] "Overall" ⟨0⟩ 0) :=
  ⟨Reachable.record "Overall" ⟨0⟩ 0 trivial Reachable.init, by decide⟩

/-- C2 (amended): in every state of the statistics store reachable from
the empty map by `record_request` calls whose endpoint key is not the
reserved key `"Overall"` — as is the case for every key the proxy uses,
since endpoint keys are URI paths — and by the reporter's clear step, the
`"Overall"` histogram's `total_requests` equals the sum of
`total_requests` over all other endpoint histograms. -/
theorem c2_overall_total_eq_sum (m : HistMap)
    (hm : Reachable (fun k => k ≠ "Overall") m) :
    overallTotal m = sumOtherTotals m := by
  induction hm with
  | init => rfl
  | record k d t hk _ ih =>
    rw [overallTotal_record_request _ hk, sumOtherTotals_record_request _ hk, ih]
  | clear _ _ => rfl

/-- C2 (witness): the invariant at the concrete reachable state after
recording one request for endpoint `"/foo"`. -/
theorem c2_overall_total_eq_sum_witness :
    overallTotal (record_request [] "/foo" ⟨0⟩ 0) =
      sumOtherTotals (record_request [] "/foo" ⟨0⟩ 0) :=
  c2_overall_total_eq_sum _
    (Reachable.record "/foo" ⟨0⟩ 0 (by decide) Reachable.init)

/-- C3: for every sequence of `add` calls applied to a default
histogram, with arbitrary durations and timestamps, the six bucket
counters sum exactly to `total_requests`. -/
theorem c3_bucket_sum_eq_total (l : List (Duration × Timestamp)) :
    (Histogram.default.addAll l).bucketSum =
      (Histogram.default.addAll l).total_requests := by
  suffices H : ∀ h : Histogram, h.bucketSum = h.total_requests →
      (h.addAll l).bucketSum = (h.addAll l).total_requests from H _ rfl
  induction l with
  | nil => intro h hh; exact hh
  | cons p rest ih =>
    obtain ⟨d, t⟩ := p
    intro h hh
    exact ih _ (by rw [Histogram.bucketSum_add, Histogram.add_total, hh])

/-- C4: `Histogram.add` at each bucket boundary — 10 ms, 100 ms, 250 ms,
500 ms, 1000 ms — increments the lower of the two adjacent buckets and
leaves the upper one unchanged, and 1001 ms increments the unbounded top
bucket. -/
theorem c4_bucket_boundaries (h : Histogram) (t : Timestamp) :
    ((h.add (Duration.from_millis 10) t).count_0_10 = h.count_0_10 + 1 ∧
      (h.add (Duration.from_millis 10) t).count_11_100 = h.count_11_100) ∧
    ((h.add (Duration.from_millis 100) t).count_11_100 = h.count_11_100 + 1 ∧
      (h.add (Duration.from_millis 100) t).count_101_250 = h.count_101_250) ∧
    ((h.add (Duration.from_millis 250) t).count_101_250 = h.count_101_250 + 1 ∧
      (h.add (Duration.from_millis 250) t).count_251_500 = h.count_251_500) ∧
    ((h.add (Duration.from_millis 500) t).count_251_500 = h.count_251_500 + 1 ∧
      (h.add (Duration.from_millis 500) t).count_501_1000 = h.count_501_1000) ∧
    ((h.add (Duration.from_millis 1000) t).count_501_1000 = h.count_501_1000 + 1 ∧
      (h.add (Duration.from_millis 1000) t).count_1000_plus = h.count_1000_plus) ∧
    (h.add (Duration.from_millis 1001) t).count_1000_plus = h.count_1000_plus + 1 := by
  simp only [Histogram.add, Duration.as_millis_from_millis]
  norm_num

/-- C9: bucket selection truncates the duration to whole milliseconds:
any duration strictly between 10 ms and 11 ms lands in the `0-10` bucket
(not `11-100`), and in general `add` behaves exactly as it does on the
duration rounded down to its millisecond count. -/
theorem c9_truncation (h : Histogram) (t : Timestamp) (d : Duration)
    (h1 : 10000000 < d.nanos) (h2 : d.nanos < 11000000) :
    (h.add d t).count_0_10 = h.count_0_10 + 1 ∧
    (h.add d t).count_11_100 = h.count_11_100 ∧
    h.add d t = h.add (Duration.from_millis d.as_millis) t := by
  have hms : d.as_millis = 10 := by
    show d.nanos / 1000000 = 10
    omega
  refine ⟨?_, ?_, ?_⟩
  · simp only [Histogram.add, hms]; norm_num
  · simp only [Histogram.add, hms]; norm_num
  · simp only [Histogram.add, Duration.as_millis_from_millis]

/-- C9 (witness): a 10.9 ms duration is bucketed as 10 ms. -/
theorem c9_truncation_witness :
    10000000 < 10900000 ∧ 10900000 < 11000000 ∧
    ((Histogram.default.add ⟨10900000⟩ 5).count_0_10 =
        Histogram.default.count_0_10 + 1 ∧
      (Histogram.default.add ⟨10900000⟩ 5).count_11_100 =
        Histogram.default.count_11_100 ∧
      Histogram.default.add ⟨10900000⟩ 5 =
        Histogram.default.add
          (Duration.from_millis (Duration.as_millis ⟨10900000⟩)) 5) :=
  ⟨by decide, by decide,
    c9_truncation Histogram.default 5 ⟨10900000⟩ (by decide) (by decide)⟩

/-- C10: rendering a histogram map whose only key is `"Overall"` always
produces a single default `"Overall"` row — all zero counts and `"N/A"`
— discarding the actual contents of that entry, whatever its counts and
`last_request_time` are. -/
theorem c10_overall_only_renders_default_row (h : Histogram) :
    print_histograms [("Overall", h)] =
      [["Overall", "0", "0", "0", "0", "0", "0", "0", "N/A"]] := by
  rfl

/-- C5: a request whose source IP is in the blacklist gets a 403
response with the fixed body `"Access denied"`, the upstream client is
never invoked, no log entry is appended, and the histogram map is
untouched — whatever the upstream would have answered. -/
theorem c5_blacklisted_rejected (req : Request) (ip : SocketAddr)
    (hm : HistMap) (ll : List Log) (host : String) (port : Nat)
    (bl : List IpAddr) (ts : Timestamp) (up : Except Unit Response)
    (el : Duration) (hip : bl.contains ip.ip = true) :
    proxy req ip hm ll host port bl ts up el =
      { result := .ok { status := 403, body := "Access denied" },
        histograms := hm, loglist := ll, upstreamCalled := false } := by
  have hip' : ip.ip ∈ bl := by simpa using hip
  simp [proxy, hip']

/-- C5 (witness): a concrete blacklisted request. -/
theorem c5_blacklisted_rejected_witness :
    (["9.9.9.9"] : List IpAddr).contains "9.9.9.9" = true ∧
    proxy { method := "GET", uri := { path := "/foo", query := none },
            headers := [], body := "" }
        { ip := "9.9.9.9", port := 4444 } [] [] "localhost" 3000
        ["9.9.9.9"] 7 (.ok { status := 200, body := "ok" })
        (Duration.from_millis 1) =
      { result := .ok { status := 403, body := "Access denied" },
        histograms := [], loglist := [], upstreamCalled := false } :=
  ⟨by decide,
    c5_blacklisted_rejected _ _ _ _ _ _ _ _ _ _ (by decide)⟩

/-- C7: when the upstream call fails before a response is received, the
handler returns the transport error to its caller and the statistics
store is exactly as before: same histogram map, same log list. -/
theorem c7_transport_failure_records_nothing (req : Request)
    (ip : SocketAddr) (hm : HistMap) (ll : List Log) (host : String)
    (port : Nat) (bl : List IpAddr) (ts : Timestamp) (el : Duration)
    (hip : bl.contains ip.ip = false)
    (hu : outboundUriParseOk host req.uri.pathAndQueryStr = true) :
    proxy req ip hm ll host port bl ts (.error ()) el =
      { result := .transportError, histograms := hm, loglist := ll,
        upstreamCalled := true } := by
  have hip' : ip.ip ∉ bl := by simpa using hip
  simp [proxy, hip', hu]

/-- C7 (witness): a concrete failed upstream call. -/
theorem c7_transport_failure_records_nothing_witness :
    ([] : List IpAddr).contains "1.2.3.4" = false ∧
    outboundUriParseOk "localhost" "/foo" = true ∧
    proxy { method := "GET", uri := { path := "/foo", query := none },
            headers := [], body := "" }
        { ip := "1.2.3.4", port := 5555 } [] [] "localhost" 3000 [] 7
        (.error ()) (Duration.from_millis 1) =
      { result := .transportError, histograms := [], loglist := [],
        upstreamCalled := true } :=
  ⟨by decide, by decide,
    c7_transport_failure_records_nothing _ _ _ _ _ _ _ _ _
      (by decide) (by decide)⟩

/-- C6: a successfully proxied request from a non-blacklisted IP
returns the upstream response, appends exactly one log entry whose
method, URI, source IP and microsecond duration match the request, and
applies one `add` with the measured duration to both the `"Overall"`
histogram and the histogram keyed by the request's URI path (every
other entry unchanged); for a 15 ms duration that `add` increments
`count_11_100` and `total_requests` by one and no other bucket.  (URI
paths always begin with `/`, so the endpoint key differs from
`"Overall"`.) -/
theorem c6_success_records (req : Request) (ip : SocketAddr)
    (hm : HistMap) (ll : List Log) (host : String) (port : Nat)
    (bl : List IpAddr) (ts : Timestamp) (resp : Response) (el : Duration)
    (hip : bl.contains ip.ip = false)
    (hu : outboundUriParseOk host req.uri.pathAndQueryStr = true)
    (hpath : req.uri.path ≠ "Overall") :
    (proxy req ip hm ll host port bl ts (.ok resp) el).result = .ok resp ∧
    (proxy req ip hm ll host port bl ts (.ok resp) el).loglist =
      ll ++ [{ timestamp := ts, req_method := req.method,
               req_uri := req.uri.toStr, requester_ip := ip.ip,
               micros := el.as_micros }] ∧
    (proxy req ip hm ll host port bl ts (.ok resp) el).histograms.find
        "Overall" =
      some (((hm.find "Overall").getD Histogram.default).add el ts) ∧
    (proxy req ip hm ll host port bl ts (.ok resp) el).histograms.find
        req.uri.path =
      some (((hm.find req.uri.path).getD Histogram.default).add el ts) ∧
    (∀ q : String, q ≠ "Overall" → q ≠ req.uri.path →
      (proxy req ip hm ll host port bl ts (.ok resp) el).histograms.find q =
        hm.find q) ∧
    (∀ g : Histogram,
      (g.add (Duration.from_millis 15) ts).count_11_100 = g.count_11_100 + 1 ∧
      (g.add (Duration.from_millis 15) ts).total_requests =
        g.total_requests + 1 ∧
      (g.add (Duration.from_millis 15) ts).count_0_10 = g.count_0_10 ∧
      (g.add (Duration.from_millis 15) ts).count_101_250 = g.count_101_250 ∧
      (g.add (Duration.from_millis 15) ts).count_251_500 = g.count_251_500 ∧
      (g.add (Duration.from_millis 15) ts).count_501_1000 = g.count_501_1000 ∧
      (g.add (Duration.from_millis 15) ts).count_1000_plus = g.count_1000_plus) := by
  have hstep : proxy req ip hm ll host port bl ts (.ok resp) el =
      { result := .ok resp,
        histograms := record_request hm req.uri.path el ts,
        loglist := ll ++ [{ timestamp := ts, req_method := req.method,
                            req_uri := req.uri.toStr, requester_ip := ip.ip,
                            micros := el.as_micros }],
        upstreamCalled := true } := by
    have hip' : ip.ip ∉ bl := by simpa using hip
    simp [proxy, hip', hu]
  refine ⟨by rw [hstep], by rw [hstep], ?_, ?_, ?_, ?_⟩
  · rw [hstep]
    show (record_request hm req.uri.path el ts).find "Overall" = _
    unfold record_request
    rw [HistMap.find_entryAdd_ne _ (Ne.symm hpath),
      HistMap.find_entryAdd_self]
  · rw [hstep]
    show (record_request hm req.uri.path el ts).find req.uri.path = _
    unfold record_request
    rw [HistMap.find_entryAdd_self, HistMap.find_entryAdd_ne _ hpath]
  · intro q hq1 hq2
    rw [hstep]
    show (record_request hm req.uri.path el ts).find q = _
    unfold record_request
    rw [HistMap.find_entryAdd_ne _ hq2, HistMap.find_entryAdd_ne _ hq1]
  · intro g
    simp only [Histogram.add, Duration.as_millis_from_millis]
    norm_num

/-- C6 (witness): a concrete `GET /foo` from `1.2.3.4` taking 15 ms:
the appended log entry matches the request. -/
theorem c6_success_records_witness :
    ([] : List IpAddr).contains "1.2.3.4" = false ∧
    outboundUriParseOk "localhost" "/foo" = true ∧
    ("/foo" : String) ≠ "Overall" ∧
    (proxy { method := "GET", uri := { path := "/foo", query := none },
             headers := [], body := "" }
        { ip := "1.2.3.4", port := 5555 } [] [] "localhost" 3000 [] 7
        (.ok { status := 200, body := "ok" })
        (Duration.from_millis 15)).loglist =
      [{ timestamp := 7, req_method := "GET", req_uri := "/foo",
         requester_ip := "1.2.3.4", micros := 15000 }] := by
  refine ⟨by decide, by decide, by decide, ?_⟩
  have H := c6_success_records
    { method := "GET", uri := { path := "/foo", query := none },
      headers := [], body := "" }
    { ip := "1.2.3.4", port := 5555 } [] [] "localhost" 3000 [] 7
    { status := 200, body := "ok" } (Duration.from_millis 15)
    (by decide) (by decide) (by decide)
  have H2 := H.2.1
  rw [H2]
  rfl

/-- C8 (counterexample): the outbound URI is built and `unwrap`ped
inside the handler on every request, with no startup validation of the
configured host; with upstream host `"local host"` (an invalid URI
authority) the panicking failure branch is reached while handling a
request, so construction failure is not confined to startup. -/
theorem c8_counterexample_invalid_host :
    (proxy { method := "GET", uri := { path := "/foo", query := none },
             headers := [], body := "" }
        { ip := "1.2.3.4", port := 5555 } [] [] "local host" 3000 [] 0
        (.ok { status := 200, body := "ok" })
        (Duration.from_millis 1)).result = ProxyResult.panicked ∧
    (proxy { method := "GET", uri := { path := "/foo", query := none },
             headers := [], body := "" }
        { ip := "1.2.3.4", port := 5555 } [] [] "local host" 3000 [] 0
        (.ok { status := 200, body := "ok" })
        (Duration.from_millis 1)).upstreamCalled = false := by
  decide

/-- C8 (amended): the outbound URI parse happens per request inside the
handler and panics there on an invalid configured host — there is no
startup-time validation; when the configured host and the request's
path-and-query form a valid URI, the construction never fails, so the
failure branch is unreachable during the handling of such requests. -/
theorem c8_no_panic_for_valid_host (req : Request) (ip : SocketAddr)
    (hm : HistMap) (ll : List Log) (host : String) (port : Nat)
    (bl : List IpAddr) (ts : Timestamp) (up : Except Unit Response)
    (el : Duration)
    (hu : outboundUriParseOk host req.uri.pathAndQueryStr = true) :
    (proxy req ip hm ll host port bl ts up el).result ≠
      ProxyResult.panicked := by
  unfold proxy
  split_ifs with h1 h2
  · simp
  · rw [hu] at h2; simp at h2
  · cases up <;> simp

/-- C8 (witness): with the default host `"localhost"` no request can
reach the panic branch. -/
theorem c8_no_panic_for_valid_host_witness :
    outboundUriParseOk "localhost" "/foo" = true ∧
    (proxy { method := "GET", uri := { path := "/foo", query := none },
             headers := [], body := "" }
        { ip := "1.2.3.4", port := 5555 } [] [] "localhost" 3000 [] 0
        (.ok { status := 200, body := "ok" })
        (Duration.from_millis 1)).result ≠ ProxyResult.panicked :=
  ⟨by decide,
    c8_no_panic_for_valid_host _ _ _ _ _ _ _ _ _ _ (by decide)⟩

/-- C1: the reporter's snapshot and clear are two separate critical
sections (main.rs lines 257-262), so an observation recorded between
them is lost: in the interleaving `record "/a"`, snapshot-clone,
`record "/b"`, clear-histograms, clear-log, the only snapshot taken
contains just the `"/a"` observation (overall total 1, no `"/b"` key),
yet the store is empty afterwards, so the `"/b"` observation — which
completed strictly after the snapshot was taken — can appear in no
later cycle either: it is lost, contradicting the claim that no
observation is lost across cycles. -/
theorem c1_snapshot_clear_loses_observation :
    (SysState.init.run
        [Ev.record "/a" (Duration.from_millis 1) 1, Ev.snapClone,
         Ev.record "/b" (Duration.from_millis 2) 2, Ev.snapClearHist,
         Ev.snapClearLog]).snapshots =
      [record_request [] "/a" (Duration.from_millis 1) 1] ∧
    overallTotal (record_request [] "/a" (Duration.from_millis 1) 1) = 1 ∧
    (record_request [] "/a" (Duration.from_millis 1) 1).find "/b" = none ∧
    (SysState.init.run
        [Ev.record "/a" (Duration.from_millis 1) 1, Ev.snapClone,
         Ev.record "/b" (Duration.from_millis 2) 2, Ev.snapClearHist,
         Ev.snapClearLog]).hist = [] ∧
    (SysState.init.run
        [Ev.record "/a" (Duration.from_millis 1) 1, Ev.snapClone,
         Ev.record "/b" (Duration.from_millis 2) 2, Ev.snapClearHist,
         Ev.snapClearLog]).log = [] := by
  decide

end Narrow
